import Mathlib

/-!
Shallow embedding of the turn-generation pipeline of the AI Adventure Engine
(src/services/aiService.ts and src/components/GameInterface.tsx).

JavaScript strings are modelled as lists of characters (`JSString`), so that
`substring`, `slice`, concatenation and length transcribe directly.  JSON
values are modelled structurally: a parsed backend payload is a record whose
fields are `Option`-valued where the source may find them absent, and the
JavaScript truthiness test `s || d` on strings (falsy for `undefined`/`""`)
is the function `jsOr`.  The five canned fallback JSON template strings of
`getFallbackResponse` are modelled by their parsed payloads, since every
consumer of that string immediately parses it (`JSON.parse` in the catch of
`generateStoryResponse`; regex match plus `JSON.parse` in `testConnection`).
Effectful calls (fetch, Math.random, JSON.parse of live text) are modelled by
passing their outcome as an explicit argument.
-/

/-- A JavaScript string, as a list of characters. -/
abbrev JSString := List Char

/-- The apostrophe character (U+0027), used inside story text. -/
def apos : Char := Char.ofNat 39

/-- JavaScript `v || d` for an optional string `v`: `undefined` and the
empty string are falsy and yield the default `d`. -/
def jsOr (v : Option JSString) (d : JSString) : JSString :=
  match v with
  | none => d
  | some s => if s = [] then d else s

/-- JavaScript `n.toString()` for a non-negative integer. -/
def natToString (n : Nat) : JSString := (toString n).toList

/-- A choice as delivered to the UI (interface `AIResponse` in aiService.ts):
both fields present. -/
structure Choice where
  id : JSString
  text : JSString
deriving Repr, DecidableEq

/-- The validated story payload (interface `AIResponse` in aiService.ts). -/
structure AIResponse where
  story : JSString
  choices : List Choice
deriving Repr, DecidableEq

/-- A choice as it appears in freshly parsed JSON: `id` and `text` may be
absent (`undefined` in the source's untyped `choice: any`). -/
structure RawChoice where
  id : Option JSString
  text : Option JSString
deriving Repr, DecidableEq

/-- A parsed payload before normalization: non-empty story plus an arbitrary
choices array (the state after the structure check at aiService.ts line 243). -/
structure RawResponse where
  story : JSString
  choices : List RawChoice
deriving Repr, DecidableEq

/-- The ellipsis marker `'...'` appended by the truncation repairs. -/
def ellipsis : JSString := "...".toList

namespace AIService

/-- Story-length repair (aiService.ts lines 248-252): a story longer than 400
characters is replaced by its first 380 characters plus the ellipsis marker. -/
def normalizeStory (story : JSString) : JSString :=
  if story.length > 400 then story.take 380 ++ ellipsis else story

/-- The fixed default choice texts used when padding a short choices array
(aiService.ts line 259). -/
def defaultChoices : List JSString :=
  ["Continue forward".toList, "Look around".toList,
   "Wait and listen".toList, "Go back".toList]

/-- The text pushed for a padding choice at 0-based position `n`
(aiService.ts line 262): `defaultChoices[n] || 'Option ' + (n+1)`. -/
def defaultTextAt (n : Nat) : JSString :=
  jsOr (defaultChoices.get? n) ("Option ".toList ++ natToString (n + 1))

/-- The padding choice pushed when the array currently has `n` entries
(aiService.ts lines 260-263): id `(n+1).toString()`, text `defaultTextAt n`. -/
def padEntry (n : Nat) : RawChoice :=
  { id := some (natToString (n + 1)), text := some (defaultTextAt n) }

/-- The `while (choices.length < 4)` padding loop of aiService.ts lines
258-264.  Each iteration appends one entry, so the loop runs at most four
times; it is modelled with fuel 4, which is never exhausted while the guard
still holds. -/
def padChoicesAux : Nat → List RawChoice → List RawChoice
  | 0, cs => cs
  | fuel + 1, cs =>
    if cs.length < 4 then padChoicesAux fuel (cs ++ [padEntry cs.length]) else cs

/-- The padding loop entered with full fuel. -/
def padChoices (cs : List RawChoice) : List RawChoice := padChoicesAux 4 cs

/-- Choice-count repair (aiService.ts lines 254-267): when the array does not
have exactly 4 entries, pad with default choices and then `slice(0, 4)`. -/
def normalizeChoiceCount (cs : List RawChoice) : List RawChoice :=
  if cs.length ≠ 4 then (padChoices cs).take 4 else cs

/-- Per-choice field repair (aiService.ts lines 269-282), at 0-based position
`index`: default missing/empty text to `Option (index+1)`, truncate text
longer than 35 characters to its first 32 plus the ellipsis marker, and
default a missing/empty id to `(index+1).toString()`. -/
def normalizeChoice (index : Nat) (c : RawChoice) : Choice :=
  let choiceText := jsOr c.text ("Option ".toList ++ natToString (index + 1))
  let choiceText :=
    if choiceText.length > 35 then choiceText.take 32 ++ ellipsis else choiceText
  { id := jsOr c.id (natToString (index + 1)), text := choiceText }

/-- The full repair pipeline applied to a parsed payload that passed the
structure check (aiService.ts lines 248-287). -/
def normalizeResponse (r : RawResponse) : AIResponse :=
  { story := normalizeStory r.story,
    choices := (normalizeChoiceCount r.choices).mapIdx normalizeChoice }

/-- The five canned fallback payloads of `getFallbackResponse` (aiService.ts
lines 102-148), modelled by the parsed content of the JSON template strings. -/
def fallbacks : List AIResponse :=
  [{ story := ("Static fills the air. You stand at a digital crossroads where three paths converge. Each route pulses with different energy.").toList,
     choices :=
       [⟨"1".toList, "Take the glowing path".toList⟩,
        ⟨"2".toList, "Follow the dark route".toList⟩,
        ⟨"3".toList, "Choose the middle way".toList⟩,
        ⟨"4".toList, "Step back and observe".toList⟩] },
   { story := ("Connection unstable. Reality flickers around you like a broken screen. Through the static, you glimpse movement ahead.").toList,
     choices :=
       [⟨"1".toList, "Move toward the movement".toList⟩,
        ⟨"2".toList, "Wait for static to clear".toList⟩,
        ⟨"3".toList, "Touch the flickering air".toList⟩,
        ⟨"4".toList, "Call out loudly".toList⟩] },
   { story := ("Demo mode active. You find yourself in a liminal space between worlds. Shadows dance at the periphery of vision.").toList,
     choices :=
       [⟨"1".toList, "Approach the shadows".toList⟩,
        ⟨"2".toList, "Stand perfectly still".toList⟩,
        ⟨"3".toList, "Search for light".toList⟩,
        ⟨"4".toList, "Listen carefully".toList⟩] },
   { story := ("The narrative engine stutters. You".toList ++ apos ::
       "re caught between story beats, suspended in potential. What happens next depends on you.".toList),
     choices :=
       [⟨"1".toList, "Force the story forward".toList⟩,
        ⟨"2".toList, "Embrace the uncertainty".toList⟩,
        ⟨"3".toList, "Look for an exit".toList⟩,
        ⟨"4".toList, "Reset everything".toList⟩] },
   { story := ("Connection lost. In this void, you sense opportunity hiding in the darkness. Your next choice will shape everything.").toList,
     choices :=
       [⟨"1".toList, "Reach into the darkness".toList⟩,
        ⟨"2".toList, "Create your own light".toList⟩,
        ⟨"3".toList, "Wait for revelation".toList⟩,
        ⟨"4".toList, "Embrace the void".toList⟩] }]

/-- `getFallbackResponse` (aiService.ts lines 101-151): picks the template at
index `Math.floor(Math.random() * fallbacks.length)`, modelled by an explicit
random index `r : Fin 5`; the returned JSON string is modelled parsed. -/
def getFallbackResponse (r : Fin 5) : AIResponse :=
  fallbacks.getD r.val { story := [], choices := [] }

/-- Outcome of the `fetch` call and response decoding as observed inside the
try-block of `makeAPIRequest` (aiService.ts lines 69-93). -/
inductive FetchOutcome where
  /-- `fetch` (or `response.json()`) itself rejects, with the thrown message. -/
  | transportFailure (detail : JSString)
  /-- The response arrived with `response.ok` false (aiService.ts line 79). -/
  | httpError (status : Nat) (statusText : JSString) (errorText : JSString)
  /-- The body parsed but `candidates[0].content.parts[0].text` is absent
  (aiService.ts line 88). -/
  | missingTextField
  /-- The body carries the expected text field (aiService.ts line 93). -/
  | text (s : JSString)
deriving Repr, DecidableEq

/-- Whether the outcome is one of the three failure categories. -/
def FetchOutcome.isFailure : FetchOutcome → Bool
  | .text _ => false
  | _ => true

/-- The string a resolved `makeAPIRequest` promise carries: either the live
backend text or one of the fallback JSON templates (modelled parsed). -/
inductive APIText where
  | live (s : JSString)
  | fallback (p : AIResponse)
deriving Repr, DecidableEq

/-- The try-block of `makeAPIRequest` (aiService.ts lines 27-93): throws
`API request failed: <status> <statusText> - <errorText>` on a non-ok status,
`Invalid API response format` on a missing text field, and propagates the
transport rejection otherwise. -/
def makeAPIRequestTry : FetchOutcome → Except JSString JSString
  | .transportFailure detail => .error detail
  | .httpError status statusText errorText =>
      .error ("API request failed: ".toList ++ natToString status ++
        " ".toList ++ statusText ++ " - ".toList ++ errorText)
  | .missingTextField => .error "Invalid API response format".toList
  | .text s => .ok s

/-- `makeAPIRequest` (aiService.ts lines 26-99): the catch at lines 94-98
swallows every failure and resolves with `getFallbackResponse()`, so the
promise always resolves (`Except.error` is never produced). -/
def makeAPIRequest (o : FetchOutcome) (r : Fin 5) : Except JSString APIText :=
  match makeAPIRequestTry o with
  | .ok s => .ok (.live s)
  | .error _ => .ok (.fallback (getFallbackResponse r))

/-- Result of `JSON.parse` on a candidate JSON object: `story` and `choices`
fields may each be absent. -/
structure ParsedJSON where
  story : Option JSString
  choices : Option (List RawChoice)
deriving Repr, DecidableEq

/-- Outcome of the regex match `/\x7b[\s\S]*\x7d/` plus `JSON.parse` applied
to a live response text. -/
inductive TextParse where
  /-- The regex found no brace-delimited substring. -/
  | noMatch
  /-- `JSON.parse` threw on the matched substring. -/
  | parseError
  /-- `JSON.parse` produced a value. -/
  | value (v : ParsedJSON)
deriving Repr, DecidableEq

/-- JavaScript truthiness of an optional string field. -/
def truthyStr : Option JSString → Bool
  | none => false
  | some s => !s.isEmpty

/-- `testConnection` (aiService.ts lines 300-327), with the JSON machinery on
live text passed in as `parse`.  On the fallback branch the returned string is
one of the canned templates, whose regex match parses back to exactly the
payload `p`. -/
def testConnection (o : FetchOutcome) (r : Fin 5)
    (parse : JSString → TextParse) : Bool :=
  match makeAPIRequest o r with
  | .error _ => false
  | .ok (.fallback p) => !p.story.isEmpty && decide (p.choices.length = 4)
  | .ok (.live s) =>
    match parse s with
    | .noMatch => false
    | .parseError => false
    | .value v =>
        truthyStr v.story && v.choices.isSome &&
          decide ((v.choices.getD []).length = 4)

/-- `generateStoryResponse` (aiService.ts lines 218-297), with the fetch
outcome, the two pseudo-random fallback indices (one inside `makeAPIRequest`,
one in the outer catch at line 293), and the JSON machinery on live text made
explicit.  The catch path `JSON.parse(getFallbackResponse())` is the parsed
fallback payload; a fallback string returned by `makeAPIRequest` flows through
the regex + parse + normalization pipeline, which is applied to its payload. -/
def generateStoryResponse (o : FetchOutcome) (r r2 : Fin 5)
    (parse : JSString → TextParse) : AIResponse :=
  match makeAPIRequest o r with
  | .error _ => getFallbackResponse r2
  | .ok (.fallback p) =>
      normalizeResponse
        { story := p.story,
          choices := p.choices.map (fun c => { id := some c.id, text := some c.text }) }
  | .ok (.live s) =>
    match parse s with
    | .noMatch => getFallbackResponse r2
    | .parseError => getFallbackResponse r2
    | .value v =>
      match v.story, v.choices with
      | some story, some choices =>
          if story = [] then getFallbackResponse r2
          else normalizeResponse { story := story, choices := choices }
      | some _, none => getFallbackResponse r2
      | none, _ => getFallbackResponse r2

end AIService

namespace GameInterface

/-- The four transcript message kinds (GameInterface.tsx line 7). -/
inductive MessageType where
  | narrator
  | user
  | system
  | error
deriving Repr, DecidableEq

/-- A transcript message (interface `GameMessage`).  The `timestamp: Date`
field is wall-clock metadata and is not modelled. -/
structure GameMessage where
  type : MessageType
  content : JSString
deriving Repr, DecidableEq

/-- The `gameState` React state (interface `GameState`, GameInterface.tsx
lines 17-24). -/
structure GameState where
  messages : List GameMessage
  currentChoices : List Choice
  isWaitingForResponse : Bool
  gameStarted : Bool
  storyTopic : JSString
  gameHistory : List JSString
deriving Repr, DecidableEq

/-- The component state: `gameState` plus the sibling `useState` hooks
`userInput`, `apiError` and `isUsingFallback` (GameInterface.tsx lines 27-38). -/
structure UIState where
  game : GameState
  userInput : JSString
  apiError : Option JSString
  isUsingFallback : Bool
deriving Repr, DecidableEq

/-- `addMessage` (GameInterface.tsx lines 83-94): appends one message to the
transcript. -/
def addMessage (st : UIState) (type : MessageType) (content : JSString) : UIState :=
  { st with game :=
      { st.game with messages := st.game.messages ++ [{ type := type, content := content }] } }

/-- The serialized history entry built at GameInterface.tsx line 97:
`Player: <action>\nNarrator: <response>`. -/
def mkHistoryEntry (userAction narratorResponse : JSString) : JSString :=
  "Player: ".toList ++ userAction ++ "\nNarrator: ".toList ++ narratorResponse

/-- JavaScript `arr.slice(-n)` for `n ≥ 1`: the last `min n arr.length`
elements. -/
def sliceLast (n : Nat) (l : List JSString) : List JSString :=
  l.drop (l.length - n)

/-- `addToGameHistory` (GameInterface.tsx lines 96-102), as a function of the
history buffer: `[...prev.gameHistory.slice(-10), historyEntry]`. -/
def addToGameHistory (history : List JSString) (userAction narratorResponse : JSString) :
    List JSString :=
  sliceLast 10 history ++ [mkHistoryEntry userAction narratorResponse]

/-- Outcome of the awaited `aiService.generateStoryResponse` call as seen by
the component: resolved with a payload, or rejected.  A rejection carries
`some msg` when the thrown value is an `Error` (whose `.message` is read) and
`none` otherwise (GameInterface.tsx line 144). -/
inductive ServiceOutcome where
  | ok (response : AIResponse)
  | thrown (msg : Option JSString)
deriving Repr, DecidableEq

/-- The error text used when the thrown value is not an `Error`. -/
def errorMsgOf : Option JSString → JSString
  | some m => m
  | none => "Unknown error occurred".toList

/-- The error-kind transcript message appended on a failed turn
(GameInterface.tsx line 147). -/
def narrativeEngineErrorText : JSString :=
  "NARRATIVE ENGINE ERROR: Unable to process request. The AI narrator is experiencing difficulties.".toList

/-- The fixed recovery menu installed by the catch of `generateStoryResponse`
(GameInterface.tsx lines 152-157). -/
def recoveryChoices : List Choice :=
  [⟨"1".toList, "Try again".toList⟩,
   ⟨"2".toList, "Restart adventure".toList⟩,
   ⟨"3".toList, "Continue with demo mode".toList⟩,
   ⟨"4".toList, "Update API settings".toList⟩]

/-- The component-level `generateStoryResponse` (GameInterface.tsx lines
104-160) as a state transition, with the service-call outcome explicit.
Lines 105-106 first set the waiting flag, clear the choice set and clear
`apiError`; the success branch appends the narrator message, records history
on non-first turns, installs the new choices and runs the offline-marker
check of line 135; the catch branch records `apiError`, appends the error
message and installs the recovery menu. -/
def generateStoryResponseStep (st : UIState) (userAction : JSString)
    (isFirstTurn : Bool) (outcome : ServiceOutcome) : UIState :=
  let st0 : UIState :=
    { st with
        game := { st.game with isWaitingForResponse := true, currentChoices := [] },
        apiError := none }
  match outcome with
  | .ok response =>
    let st1 := addMessage st0 .narrator response.story
    let st2 :=
      if isFirstTurn then st1
      else { st1 with game :=
        { st1.game with gameHistory := addToGameHistory st1.game.gameHistory userAction response.story } }
    let st3 :=
      { st2 with game :=
        { st2.game with isWaitingForResponse := false, currentChoices := response.choices } }
    if List.IsInfix ("offline mode".toList) response.story ∨
        List.IsInfix ("fallback".toList) response.story then
      let st4 := { st3 with isUsingFallback := true }
      if st4.apiError = none then
        { st4 with apiError := some "Using offline mode - stories may be limited".toList }
      else st4
    else st3
  | .thrown msg =>
    let st1 :=
      { st0 with apiError := some ("Failed to generate response: ".toList ++ errorMsgOf msg) }
    let st2 := addMessage st1 .error narrativeEngineErrorText
    { st2 with game :=
      { st2.game with isWaitingForResponse := false, currentChoices := recoveryChoices } }

/-- `restartGame` (GameInterface.tsx lines 244-255): resets `gameState` and
`userInput`; `apiError` and `isUsingFallback` are deliberately kept. -/
def restartGame (st : UIState) : UIState :=
  { st with
      game :=
        { messages := [], currentChoices := [], isWaitingForResponse := false,
          gameStarted := false, storyTopic := [], gameHistory := [] },
      userInput := [] }

/-- JavaScript `s.trim()`. -/
def jsTrim (s : JSString) : JSString :=
  ((s.dropWhile Char.isWhitespace).reverse.dropWhile Char.isWhitespace).reverse

/-- JavaScript `s.replace(pat, '')` for a plain-string pattern: removes the
first occurrence of `pat`, or returns `s` unchanged if `pat` does not occur. -/
def replaceFirstOcc (s pat : JSString) : JSString :=
  match s with
  | [] => []
  | c :: rest =>
      if !pat.isEmpty && pat.isPrefixOf (c :: rest) then (c :: rest).drop pat.length
      else c :: replaceFirstOcc rest pat

/-- The replayed action extracted by the `Try again` branch (GameInterface.tsx
line 193): first line of the last history entry, with the leading
`Player: ` removed, defaulting to `continue` when empty. -/
def lastActionOf (history : List JSString) : JSString :=
  let entry := history.getLastD []
  let firstLine := entry.takeWhile (fun c => c ≠ '\n')
  let stripped := replaceFirstOcc firstLine ("Player: ".toList)
  if stripped = [] then "continue".toList else stripped

/-- The effect a UI handler requests besides its state update: nothing, a new
generation turn (a call of the component-level `generateStoryResponse`), the
out-of-band API-key dialog of `updateApiKey`, or the asynchronous connectivity
probe of the `Check connection` branch. -/
inductive TurnEffect where
  | none
  | generate (action : JSString) (isFirstTurn : Bool)
  | openApiSettings
  | connectivityProbe
deriving Repr, DecidableEq

/-- `handleChoice` (GameInterface.tsx lines 184-233): the special recovery
texts are intercepted in order before the default branch, which echoes the
choice text and submits it as the player action. -/
def handleChoice (st : UIState) (choice : Choice) : UIState × TurnEffect :=
  if choice.text = "Restart adventure".toList then
    (restartGame st, .none)
  else if choice.text = "Try again".toList ∧ st.game.gameHistory.length > 0 then
    (addMessage st .user ("> ".toList ++ choice.text),
     .generate (lastActionOf st.game.gameHistory) false)
  else if choice.text = "Update API settings".toList then
    (st, .openApiSettings)
  else if choice.text = "Continue with demo mode".toList then
    (let st1 := addMessage st .user ("> ".toList ++ choice.text)
     let st2 := addMessage st1 .system "SWITCHING TO DEMO MODE...".toList
     { st2 with
         isUsingFallback := true,
         apiError := some "Demo mode active - limited story variations".toList },
     .generate "continue in demo mode".toList false)
  else if choice.text = "Check connection".toList then
    (let st1 := addMessage st .user ("> ".toList ++ choice.text)
     addMessage st1 .system "TESTING AI CONNECTION...".toList,
     .connectivityProbe)
  else
    (addMessage st .user ("> ".toList ++ choice.text), .generate choice.text false)

/-- `handleUserInput` (GameInterface.tsx lines 235-242): returns immediately
when the trimmed input is empty or a response is pending; otherwise echoes the
input, submits it as the player action and clears the input field. -/
def handleUserInput (st : UIState) : UIState × TurnEffect :=
  if jsTrim st.userInput = [] ∨ st.game.isWaitingForResponse = true then
    (st, .none)
  else
    ({ addMessage st .user ("> ".toList ++ st.userInput) with userInput := [] },
     .generate st.userInput false)

/-- The two ways a user interaction reaches the turn pipeline: submitting the
free-text form, or clicking a rendered choice button. -/
inductive UIEvent where
  | submitInput
  | clickChoice (c : Choice)

/-- Whether the event can be delivered in state `st`.  A choice button exists
in the DOM only when the choice panel is rendered, which requires a non-empty
choice set and no pending response (GameInterface.tsx line 436:
`currentChoices.length > 0 && !isWaitingForResponse`); the input form is
always present. -/
def eventAdmissible (st : UIState) : UIEvent → Prop
  | .submitInput => True
  | .clickChoice c =>
      st.game.currentChoices ≠ [] ∧ st.game.isWaitingForResponse = false ∧
        c ∈ st.game.currentChoices

/-- Dispatch of an admissible UI event to its handler. -/
def dispatch (st : UIState) : UIEvent → UIState × TurnEffect
  | .submitInput => handleUserInput st
  | .clickChoice c => handleChoice st c

end GameInterface

/-- The padding loop grows a short choices array to exactly 4 entries and
leaves a long one alone: its result length is `max 4 cs.length` whenever the
fuel covers the missing entries. -/
theorem padChoicesAux_length :
    ∀ (fuel : Nat) (cs : List RawChoice), 4 ≤ fuel + cs.length →
      (AIService.padChoicesAux fuel cs).length = max 4 cs.length
  | 0, cs, h => by
      unfold AIService.padChoicesAux
      omega
  | fuel + 1, cs, h => by
      have hstep : AIService.padChoicesAux (fuel + 1) cs =
          if cs.length < 4 then
            AIService.padChoicesAux fuel (cs ++ [AIService.padEntry cs.length])
          else cs := rfl
      rw [hstep]
      by_cases hlt : cs.length < 4
      · rw [if_pos hlt]
        have hrec := padChoicesAux_length fuel (cs ++ [AIService.padEntry cs.length])
          (by simp only [List.length_append, List.length_singleton]; omega)
        rw [hrec]
        simp only [List.length_append, List.length_singleton]
        omega
      · rw [if_neg hlt]
        omega

/-- C5: choice-count normalization always yields exactly 4 choices; an array
with fewer than 4 entries is extended by padding entries whose id at 0-based
position `p` is `(p+1).toString()` (the 1-based position) and whose text is
`defaultTextAt p`, the fixed default list indexed by position; an array with
more than 4 entries is cut to its first 4 in order. -/
theorem c5_choice_count (cs : List RawChoice) :
    (AIService.normalizeChoiceCount cs).length = 4
    ∧ (cs.length < 4 →
        AIService.normalizeChoiceCount cs =
          cs ++ (List.range (4 - cs.length)).map
            (fun j => AIService.padEntry (cs.length + j)))
    ∧ (4 < cs.length → AIService.normalizeChoiceCount cs = cs.take 4) := by
  refine ⟨?_, ?_, ?_⟩
  · unfold AIService.normalizeChoiceCount
    by_cases h : cs.length = 4
    · rw [if_neg (not_not_intro h)]
      exact h
    · rw [if_pos h]
      rw [List.length_take]
      unfold AIService.padChoices
      rw [padChoicesAux_length 4 cs (by omega)]
      omega
  · intro h
    rcases cs with _ | ⟨a, _ | ⟨b, _ | ⟨c, _ | ⟨d, tl⟩⟩⟩⟩
    · rfl
    · rfl
    · rfl
    · rfl
    · simp only [List.length_cons] at h
      omega
  · intro h
    unfold AIService.normalizeChoiceCount AIService.padChoices
    rw [if_pos (by omega)]
    have hstep : AIService.padChoicesAux 4 cs =
        if cs.length < 4 then
          AIService.padChoicesAux 3 (cs ++ [AIService.padEntry cs.length])
        else cs := rfl
    rw [hstep, if_neg (by omega)]

/-- Witness for C5 at a concrete one-entry array. -/
theorem c5_witness :
    ([⟨some ("9".toList), some ("Run".toList)⟩] : List RawChoice).length < 4 ∧
      AIService.normalizeChoiceCount [⟨some ("9".toList), some ("Run".toList)⟩] =
        [⟨some ("9".toList), some ("Run".toList)⟩] ++
          (List.range (4 - ([⟨some ("9".toList), some ("Run".toList)⟩] : List RawChoice).length)).map
            (fun j =>
              AIService.padEntry (([⟨some ("9".toList), some ("Run".toList)⟩] : List RawChoice).length + j)) :=
  ⟨by decide, (c5_choice_count [⟨some ("9".toList), some ("Run".toList)⟩]).2.1 (by decide)⟩

/-- C6: the story-length repair caps the story at 400 characters; a story of
length L > 400 becomes its first 380 characters plus the ellipsis marker
(total length 383), a story of length L ≤ 400 is unchanged, and the repair is
a total function (it never fails). -/
theorem c6_story_truncation (s : JSString) :
    (AIService.normalizeStory s).length ≤ 400
    ∧ (s.length > 400 →
        AIService.normalizeStory s = s.take 380 ++ ellipsis ∧
          (AIService.normalizeStory s).length = 383)
    ∧ (s.length ≤ 400 → AIService.normalizeStory s = s) := by
  unfold AIService.normalizeStory
  by_cases h : s.length > 400
  · rw [if_pos h]
    refine ⟨?_, fun _ => ⟨rfl, ?_⟩, fun hle => absurd h (by omega)⟩
    · simp only [List.length_append, List.length_take]
      have : ellipsis.length = 3 := rfl
      omega
    · simp only [List.length_append, List.length_take]
      have : ellipsis.length = 3 := rfl
      omega
  · rw [if_neg h]
    exact ⟨by omega, fun hgt => absurd hgt h, fun _ => rfl⟩

/-- Witness for C6 at a concrete 401-character story. -/
theorem c6_witness :
    (List.replicate 401 'x' : JSString).length > 400 ∧
      AIService.normalizeStory (List.replicate 401 'x') =
        (List.replicate 401 'x' : JSString).take 380 ++ ellipsis :=
  ⟨by rw [List.length_replicate]; omega,
   ((c6_story_truncation (List.replicate 401 'x')).2.1 (by rw [List.length_replicate]; omega)).1⟩

/-- C7: per-choice repair at 1-based position `index+1` (the map only ever
passes `index < 4`): a missing id defaults to the position as a string,
missing or empty text defaults to `Option N`, text longer than 35 characters
becomes its first 32 plus the ellipsis marker (length 35), and text of length
at most 35 is kept unchanged. -/
theorem c7_choice_field_repair (index : Nat) (c : RawChoice) (hidx : index < 4) :
    (c.id = none →
        (AIService.normalizeChoice index c).id = natToString (index + 1))
    ∧ ((c.text = none ∨ c.text = some []) →
        (AIService.normalizeChoice index c).text =
          "Option ".toList ++ natToString (index + 1))
    ∧ (∀ t, c.text = some t → t ≠ [] →
        (t.length > 35 →
          (AIService.normalizeChoice index c).text = t.take 32 ++ ellipsis ∧
            ((AIService.normalizeChoice index c).text).length = 35)
        ∧ (t.length ≤ 35 → (AIService.normalizeChoice index c).text = t)) := by
  refine ⟨?_, ?_, ?_⟩
  · intro hid
    simp [AIService.normalizeChoice, jsOr, hid]
  · intro htext
    have htext' : jsOr c.text ("Option ".toList ++ natToString (index + 1)) =
        "Option ".toList ++ natToString (index + 1) := by
      rcases htext with h | h <;> simp [jsOr, h]
    have hlen : ¬ (("Option ".toList ++ natToString (index + 1)).length > 35) := by
      interval_cases index <;> decide
    simp only [AIService.normalizeChoice, htext']
    rw [if_neg hlen]
  · intro t ht hne
    constructor
    · intro h35
      have hrw : (AIService.normalizeChoice index c).text = t.take 32 ++ ellipsis := by
        simp [AIService.normalizeChoice, jsOr, ht, hne, if_pos h35]
      refine ⟨hrw, ?_⟩
      rw [hrw]
      simp only [List.length_append, List.length_take]
      have : ellipsis.length = 3 := rfl
      omega
    · intro h35
      simp [AIService.normalizeChoice, jsOr, ht, hne]
      omega

/-- Witness for C7 at position 0 with a missing id and a 40-character text. -/
theorem c7_witness :
    (AIService.normalizeChoice 0 ⟨none, some (List.replicate 40 'z')⟩).id = natToString 1 ∧
      (AIService.normalizeChoice 0 ⟨none, some (List.replicate 40 'z')⟩).text =
        (List.replicate 40 'z' : JSString).take 32 ++ ellipsis :=
  ⟨(c7_choice_field_repair 0 ⟨none, some (List.replicate 40 'z')⟩ (by decide)).1 rfl,
   (((c7_choice_field_repair 0 ⟨none, some (List.replicate 40 'z')⟩ (by decide)).2.2
      (List.replicate 40 'z') rfl (by decide)).1 (by decide)).1⟩

set_option maxRecDepth 100000 in
set_option maxHeartbeats 1000000 in
/-- C9: the fallback pool holds exactly 5 (hence at least 5) payloads, each
independently satisfying the TurnPayload invariants — non-empty story of at
most 400 characters, exactly 4 choices, every choice text at most 35
characters — and each is a fixed point of the full normalization pipeline. -/
theorem c9_fallback_pool_valid :
    AIService.fallbacks.length = 5
    ∧ AIService.fallbacks.all (fun p =>
        !p.story.isEmpty && decide (p.story.length ≤ 400) &&
          decide (p.choices.length = 4) &&
          p.choices.all (fun c => decide (c.text.length ≤ 35))) = true
    ∧ AIService.fallbacks.all (fun p =>
        decide (AIService.normalizeResponse
          { story := p.story,
            choices := p.choices.map (fun c => { id := some c.id, text := some c.text }) }
          = p)) = true := by
  refine ⟨rfl, by decide, by decide⟩

/-- C1 (counterexample): on a non-success HTTP status the call does not fail —
the catch of `makeAPIRequest` resolves the promise with substituted fallback
content, so no error is ever propagated. -/
theorem c1_counterexample :
    AIService.makeAPIRequest
        (.httpError 500 ("Internal Server Error".toList) ("quota exceeded".toList)) 0
      = .ok (.fallback (AIService.getFallbackResponse 0))
    ∧ ¬ ∃ e, AIService.makeAPIRequest
        (.httpError 500 ("Internal Server Error".toList) ("quota exceeded".toList)) 0
          = .error e := by
  refine ⟨rfl, ?_⟩
  rintro ⟨e, he⟩
  simp [AIService.makeAPIRequest, AIService.makeAPIRequestTry] at he

/-- C1 (amended): on non-success HTTP status, transport failure, or a missing
text field, `makeAPIRequest` catches the error and resolves successfully with
one of the canned fallback payloads; it never rejects. -/
theorem c1_amended (o : AIService.FetchOutcome) (r : Fin 5)
    (h : o.isFailure = true) :
    AIService.makeAPIRequest o r = .ok (.fallback (AIService.getFallbackResponse r)) := by
  cases o with
  | transportFailure d => rfl
  | httpError status statusText errorText => rfl
  | missingTextField => rfl
  | text s => exact absurd h (by simp [AIService.FetchOutcome.isFailure])

/-- Witness for C1 (amended) at a missing-text-field outcome. -/
theorem c1_witness :
    (AIService.FetchOutcome.missingTextField).isFailure = true ∧
      AIService.makeAPIRequest .missingTextField 2 =
        .ok (.fallback (AIService.getFallbackResponse 2)) :=
  ⟨rfl, c1_amended .missingTextField 2 rfl⟩

/-- C4 (counterexample): a transport failure makes `testConnection` return
true, not false — `makeAPIRequest` substitutes a fallback JSON string, which
parses into a valid 4-choice payload. -/
theorem c4_counterexample :
    AIService.testConnection (.transportFailure ("fetch failed".toList)) 0
      (fun _ => .noMatch) = true := rfl

/-- C4 (amended): `testConnection` never raises; every failure outcome yields
true (the substituted fallback always parses as a valid 4-choice payload),
and on a live reply it returns false when the text has no JSON match or the
parse throws, and otherwise reports whether the parsed value has a truthy
story, a present choices field, and exactly 4 choices. -/
theorem c4_amended (o : AIService.FetchOutcome) (r : Fin 5)
    (parse : JSString → AIService.TextParse) :
    (o.isFailure = true → AIService.testConnection o r parse = true)
    ∧ (∀ s, o = .text s →
        ((parse s = .noMatch ∨ parse s = .parseError) →
            AIService.testConnection o r parse = false)
        ∧ (∀ v, parse s = .value v →
            AIService.testConnection o r parse =
              (AIService.truthyStr v.story && v.choices.isSome &&
                decide ((v.choices.getD []).length = 4)))) := by
  have hpool : ∀ r' : Fin 5,
      (!(AIService.getFallbackResponse r').story.isEmpty &&
        decide ((AIService.getFallbackResponse r').choices.length = 4)) = true := by
    decide
  constructor
  · intro h
    cases o with
    | transportFailure d => exact hpool r
    | httpError status statusText errorText => exact hpool r
    | missingTextField => exact hpool r
    | text s => exact absurd h (by simp [AIService.FetchOutcome.isFailure])
  · intro s hs
    subst hs
    constructor
    · rintro (hp | hp) <;>
        simp [AIService.testConnection, AIService.makeAPIRequest,
          AIService.makeAPIRequestTry, hp]
    · intro v hp
      simp [AIService.testConnection, AIService.makeAPIRequest,
        AIService.makeAPIRequestTry, hp]

/-- Witness for C4 (amended) at a concrete transport failure. -/
theorem c4_witness :
    (AIService.FetchOutcome.transportFailure ("network down".toList)).isFailure = true ∧
      AIService.testConnection (.transportFailure ("network down".toList)) 3
        (fun _ => .parseError) = true :=
  ⟨rfl, (c4_amended (.transportFailure ("network down".toList)) 3 (fun _ => .parseError)).1 rfl⟩

/-- A live session state with no pending response, an empty history and the
fallback flag off, used to evaluate the orchestrator at concrete inputs. -/
def liveIdleState : GameInterface.UIState :=
  { game := { messages := [], currentChoices := [], isWaitingForResponse := false,
              gameStarted := true, storyTopic := "space exploration".toList,
              gameHistory := [] },
    userInput := [], apiError := none, isUsingFallback := false }

/-- C2 (counterexample): after a failed turn the component leaves the
fallback-mode flag unchanged — starting from live mode (`isUsingFallback =
false`), the flag is still false, so the mode is not set to fallback as the
claim states. -/
theorem c2_counterexample :
    (GameInterface.generateStoryResponseStep liveIdleState ("look around".toList) false
        (.thrown (some ("TransportError: fetch failed".toList)))).isUsingFallback = false := rfl

/-- C2 (amended): when the component-level `generateStoryResponse` call is
rejected, exactly one new error-kind message is appended to the transcript,
the failure detail is recorded as `apiError` (the lastError), the waiting
flag is cleared, the current choice set is replaced by exactly the four
recovery choices `Try again`, `Restart adventure`, `Continue with demo mode`,
`Update API settings` — but the fallback-mode flag and the history buffer are
left unchanged. -/
theorem c2_amended (st : GameInterface.UIState) (userAction : JSString)
    (isFirstTurn : Bool) (msg : Option JSString) :
    (GameInterface.generateStoryResponseStep st userAction isFirstTurn (.thrown msg)).game.messages
        = st.game.messages ++
            [{ type := .error, content := GameInterface.narrativeEngineErrorText }]
    ∧ (GameInterface.generateStoryResponseStep st userAction isFirstTurn (.thrown msg)).apiError
        = some ("Failed to generate response: ".toList ++ GameInterface.errorMsgOf msg)
    ∧ (GameInterface.generateStoryResponseStep st userAction isFirstTurn (.thrown msg)).game.currentChoices
        = GameInterface.recoveryChoices
    ∧ (GameInterface.generateStoryResponseStep st userAction isFirstTurn (.thrown msg)).game.isWaitingForResponse
        = false
    ∧ (GameInterface.generateStoryResponseStep st userAction isFirstTurn (.thrown msg)).game.gameHistory
        = st.game.gameHistory
    ∧ (GameInterface.generateStoryResponseStep st userAction isFirstTurn (.thrown msg)).isUsingFallback
        = st.isUsingFallback :=
  ⟨rfl, rfl, rfl, rfl, rfl, rfl⟩

/-- Iterated completed non-first turns: turn `k` records player action and
narrator response `k.toString()` through `addToGameHistory`, starting from an
empty buffer. -/
def pushTurns : Nat → List JSString
  | 0 => []
  | n + 1 => GameInterface.addToGameHistory (pushTurns n) (natToString (n + 1)) (natToString (n + 1))

/-- C3 (code bug): after 11 completed non-first turns the history buffer
holds 11 entries, not 10 — `slice(-10)` keeps the 10 most recent entries and
then one more is appended, contradicting the inline comment `Keep last 10
entries`; the oldest entry (turn 1) has not been dropped either. -/
theorem c3_history_overflow :
    (pushTurns 11).length = 11
    ∧ 10 < (pushTurns 11).length
    ∧ (pushTurns 11).head? =
        some (GameInterface.mkHistoryEntry (natToString 1) (natToString 1)) := by
  refine ⟨by decide, by decide, by decide⟩

/-- C8: while a response is pending, no admissible UI event changes the
state or starts another generation call: the free-text form is guarded in
`handleUserInput` (GameInterface.tsx line 237), and no choice button is
rendered while waiting (GameInterface.tsx line 436), so the unguarded
`handleChoice` cannot be reached. -/
theorem c8_turn_guard (st : GameInterface.UIState) (ev : GameInterface.UIEvent)
    (hw : st.game.isWaitingForResponse = true)
    (ha : GameInterface.eventAdmissible st ev) :
    GameInterface.dispatch st ev = (st, .none) := by
  cases ev with
  | submitInput =>
      show GameInterface.handleUserInput st = (st, .none)
      unfold GameInterface.handleUserInput
      rw [if_pos (Or.inr hw)]
  | clickChoice c =>
      rcases ha with ⟨-, hfalse, -⟩
      rw [hw] at hfalse
      cases hfalse

/-- A session state with a pending response, used as the C8 witness input. -/
def waitingState : GameInterface.UIState :=
  { game := { messages := [], currentChoices := [], isWaitingForResponse := true,
              gameStarted := true, storyTopic := "space exploration".toList,
              gameHistory := [] },
    userInput := "go north".toList, apiError := none, isUsingFallback := false }

/-- Witness for C8: submitting the form while waiting is a no-op. -/
theorem c8_witness :
    GameInterface.dispatch waitingState .submitInput = (waitingState, .none) :=
  c8_turn_guard waitingState .submitInput rfl True.intro

/-- C10: selecting the choice labelled `Try again` with an empty session
history is not intercepted as a replay: the interception branch requires a
non-empty history, so the default branch echoes `> Try again` as the user
message and submits the literal text `Try again` as the player action of a
new generation turn. -/
theorem c10_try_again_literal (st : GameInterface.UIState) (cid : JSString)
    (hh : st.game.gameHistory = []) :
    GameInterface.handleChoice st { id := cid, text := "Try again".toList } =
      (GameInterface.addMessage st .user ("> Try again".toList),
       .generate ("Try again".toList) false) := by
  obtain ⟨⟨msgs, cc, w, gs, topic, hist⟩, ui, ae, fb⟩ := st
  change hist = [] at hh
  subst hh
  rfl

/-- A fresh session state with empty history, used as the C10 witness input. -/
def freshHistoryState : GameInterface.UIState :=
  { game := { messages := [], currentChoices := GameInterface.recoveryChoices,
              isWaitingForResponse := false, gameStarted := true,
              storyTopic := "horror mansion".toList, gameHistory := [] },
    userInput := [], apiError := some ("Failed to generate response: x".toList),
    isUsingFallback := false }

/-- Witness for C10 at a concrete post-failure state with empty history. -/
theorem c10_witness :
    GameInterface.handleChoice freshHistoryState
        { id := "1".toList, text := "Try again".toList } =
      (GameInterface.addMessage freshHistoryState .user ("> Try again".toList),
       .generate ("Try again".toList) false) :=
  c10_try_again_literal freshHistoryState ("1".toList) rfl
